import Mathlib

/-!
Verification development for the Kirkgate Market ICS scraper.

The Python source (src/main.py, src/settings.py, src/exceptions.py) is a
linear pipeline: HTTP fetch, HTML table extraction, two LLM round trips,
ICS serialization, and file persistence.  Pure computations are embedded
as Lean functions; library boundaries (the HTTP transport, BeautifulSoup's
string-to-DOM parse, `json.loads`, `uuid.uuid4`, and the system clock) are
modelled as explicit parameters or oracle inputs.  Fallible Python code
(exceptions) is embedded with `Except`.
-/

namespace Kirkgate

/-- Python exception outcomes used by the pipeline. -/
inductive PyErr where
  /-- `AttributeError`, e.g. calling `.find` on `None`. -/
  | attributeError
  /-- `ValueError`, e.g. `int("July")`. -/
  | valueError
  /-- `json.JSONDecodeError` from `json.loads`. -/
  | jsonDecodeError
  /-- `pydantic.ValidationError` from `Event.model_validate`. -/
  | validationError
  /-- `TypeError`, e.g. iterating a non-iterable. -/
  | typeError
  /-- `calendar.IllegalMonthError` from `TextCalendar.formatmonth`. -/
  | illegalMonthError
  deriving Repr, DecidableEq

/-- `datetime.date`: a calendar date. -/
structure PyDate where
  year : Nat
  month : Nat
  day : Nat
  deriving Repr, DecidableEq

/-- `datetime.time`: a time of day. -/
structure PyTime where
  hour : Nat
  minute : Nat
  second : Nat
  deriving Repr, DecidableEq

/-- `datetime.datetime`: date plus time of day. -/
structure PyDateTime where
  year : Nat
  month : Nat
  day : Nat
  hour : Nat
  minute : Nat
  second : Nat
  deriving Repr, DecidableEq

/-- Zero-pad a number to two digits, as `strftime` field formatting does. -/
def pad2 (n : Nat) : String :=
  if n < 10 then "0" ++ toString n else toString n

/-- Zero-pad a number to four digits, as `strftime` `%Y` does. -/
def pad4 (n : Nat) : String :=
  if n < 10 then "000" ++ toString n
  else if n < 100 then "00" ++ toString n
  else if n < 1000 then "0" ++ toString n
  else toString n

/-- `dt.strftime("%Y%m%dT%H%M%S")` (main.py lines 202-203). -/
def strftime_basic (dt : PyDateTime) : String :=
  pad4 dt.year ++ pad2 dt.month ++ pad2 dt.day ++ "T" ++
    pad2 dt.hour ++ pad2 dt.minute ++ pad2 dt.second

/-- `datetime.combine(date, time)` (main.py lines 191-192). -/
def datetime_combine (d : PyDate) (t : PyTime) : PyDateTime :=
  ⟨d.year, d.month, d.day, t.hour, t.minute, t.second⟩

/-- The `Event` pydantic model (main.py lines 22-29). -/
structure Event where
  date : PyDate
  title : String
  description : Option String := none
  start_time : PyTime
  end_time : PyTime
  deriving Repr, DecidableEq

/-- The fixed ICS header lines (main.py lines 175-180). -/
def ics_header : List String :=
  ["BEGIN:VCALENDAR", "VERSION:2.0", "PRODID:-//MyPythonScript//EN",
   "CALSCALE:GREGORIAN"]

/-- The fixed ICS footer line (main.py line 183). -/
def ics_footer : List String := ["END:VCALENDAR"]

/-- `datetime.now().strftime("%Y%m%dT%H%M%SZ")` (main.py line 186): the
wall-clock reading of `datetime.now()` — which is local time, not UTC —
formatted in basic format with a literal `Z` appended.  `now` stands for
the value the system clock returned. -/
def creation_timestamp (now : PyDateTime) : String :=
  strftime_basic now ++ "Z"

/-- `description.replace("\n", "\\n")` (main.py line 195): escape each
newline in a description as a literal backslash-n. -/
def escape_newlines (s : String) : String :=
  String.mk (s.data.flatMap fun c => if c = '\n' then ['\\', 'n'] else [c])

/-- One `VEVENT` block (main.py lines 188-208): `uid` stands for the
`uuid.uuid4()` drawn for this event, `ts` for the `creation_timestamp`
computed once per call. -/
def event_entry (uid : String) (ts : String) (e : Event) : List String :=
  ["BEGIN:VEVENT",
   "UID:" ++ uid,
   "DTSTAMP:" ++ ts,
   "DTSTART:" ++ strftime_basic (datetime_combine e.date e.start_time),
   "DTEND:" ++ strftime_basic (datetime_combine e.date e.end_time),
   "SUMMARY:" ++ e.title,
   "DESCRIPTION:" ++ escape_newlines (e.description.getD ""),
   "LOCATION:Leeds Kirkgate Market, Kirkgate, Leeds LS2 7HY, UK",
   "END:VEVENT"]

/-- All lines of the ICS document (main.py line 212): header, then the
event entries in input order, then footer.  `uuids i` stands for the
`uuid.uuid4()` drawn at loop iteration `i`. -/
def ics_lines (uuids : Nat → String) (now : PyDateTime)
    (events : List Event) : List String :=
  ics_header ++
    (events.enum.map fun p => event_entry (uuids p.1)
      (creation_timestamp now) p.2).flatten ++
    ics_footer

/-- `create_ics_from_events` (main.py lines 165-215): all lines joined
with CRLF. -/
def create_ics_from_events (uuids : Nat → String) (now : PyDateTime)
    (events : List Event) : String :=
  String.intercalate "\r\n" (ics_lines uuids now events)

/-- Python's `int(s)` on a string (main.py line 111): strip surrounding
whitespace, optional sign, then decimal digits with single underscores
allowed between digits; anything else raises `ValueError`. -/
def pyIntParse (s : String) : Except PyErr Int :=
  let stripped :=
    ((s.data.dropWhile (fun c => c.isWhitespace)).reverse.dropWhile
      (fun c => c.isWhitespace)).reverse
  let (sign, cs) : Int × List Char :=
    match stripped with
    | '-' :: rest => (-1, rest)
    | '+' :: rest => (1, rest)
    | rest => (1, rest)
  let valid :=
    !cs.isEmpty &&
    cs.head? != some '_' &&
    cs.getLast? != some '_' &&
    (cs.zip cs.tail).all (fun p => !(p.1 == '_' && p.2 == '_')) &&
    cs.all (fun c => c.isDigit || c == '_')
  if valid then
    .ok (sign * ((cs.filter (fun c => c != '_')).foldl
      (fun a c => 10 * a + (c.toNat - 48)) 0 : Nat))
  else .error .valueError

/-- The month-resolution prompt (main.py lines 92-105), with
`events_table_html` substituted by `str.format`. -/
def month_prompt (events_table_html : String) : String :=
  "    Can you tell me which month the events in this HTML calendar are for? I want you to\n    reply with the number of a month in the year, from 1-12, where 1 is January, 2 is\n    February, and so on.\n\n    Reply only with a number, no commentary or anything else.\n\n    Here is the HTML to parse:\n\n    ```html\n    " ++ events_table_html ++ "\n    ```\n    "

/-- `get_events_month` (main.py lines 90-111): sends `month_prompt html` to
the completion service and parses the reply with `int()`.  `reply` stands
for the completion service's reply text (the transport is an external
boundary). -/
def get_events_month (html : String) (reply : String) : Except PyErr Int :=
  let _formatted_prompt := month_prompt html
  pyIntParse reply

/-- A parsed HTML DOM node, the output of BeautifulSoup's string-to-DOM
parse (a library boundary). -/
inductive HtmlNode where
  | element (tag : String) (attrs : List (String × String))
      (children : List HtmlNode)
  | text (s : String)
  deriving Repr

/-- Children of a node (`text` nodes have none). -/
def HtmlNode.children : HtmlNode → List HtmlNode
  | .element _ _ c => c
  | .text _ => []

/-- Serialized attribute list, ` key="value"` per attribute. -/
def renderAttrs (attrs : List (String × String)) : String :=
  attrs.foldl (fun acc p => acc ++ " " ++ p.1 ++ "=\"" ++ p.2 ++ "\"") ""

mutual

/-- `str(tag)`: serialized markup of a node, tag included. -/
def render : HtmlNode → String
  | .text s => s
  | .element t a c => "<" ++ t ++ renderAttrs a ++ ">" ++ renderList c
      ++ "</" ++ t ++ ">"

/-- Serialized markup of a forest of nodes, in order. -/
def renderList : List HtmlNode → String
  | [] => ""
  | n :: ns => render n ++ renderList ns

end

mutual

/-- BeautifulSoup element match: the node itself if its tag matches,
otherwise the first match among its descendants in document order. -/
def findTagNode (name : String) : HtmlNode → Option HtmlNode
  | .text _ => none
  | .element t a c =>
      if t = name then some (.element t a c) else findTag name c

/-- BeautifulSoup's `find(name)` over a forest: first element with the
given tag in document (pre-order) order, descending into children
before moving to later siblings. -/
def findTag (name : String) : List HtmlNode → Option HtmlNode
  | [] => none
  | n :: ns =>
      match findTagNode name n with
      | some r => some r
      | none => findTag name ns

end

/-- `find_html_events_table` (main.py lines 58-61),
`str(soup.find("main").find("table"))` on the parsed document `doc`:
no `main` element means `find` returns `None` and `.find` on `None`
raises `AttributeError`; otherwise the first `table` inside the first
`main` is serialized with `str`, and when there is no such table,
`str(None)` is the string `"None"`. -/
def find_html_events_table (doc : List HtmlNode) : Except PyErr String :=
  match findTag "main" doc with
  | none => .error .attributeError
  | some m =>
      .ok (match findTag "table" m.children with
           | none => "None"
           | some t => render t)

/-- A JSON value, the output of `json.loads` (a library boundary). -/
inductive Json where
  | null
  | bool (b : Bool)
  | num (n : Int)
  | str (s : String)
  | arr (xs : List Json)
  | obj (fields : List (String × Json))
  deriving Repr

/-- Split a character list on a separator character, Python
`str.split(sep)` semantics: `n` separators produce `n + 1` groups. -/
def splitOnChar (sep : Char) : List Char → List (List Char)
  | [] => [[]]
  | c :: rest =>
      if c = sep then [] :: splitOnChar sep rest
      else
        match splitOnChar sep rest with
        | [] => [[c]]
        | g :: gs => (c :: g) :: gs

/-- Decimal digit-string parse used by the ISO date and time parses. -/
def parseDigits (cs : List Char) : Option Nat :=
  if !cs.isEmpty && cs.all Char.isDigit then
    some (cs.foldl (fun a c => 10 * a + (c.toNat - 48)) 0)
  else none

/-- Length of a month in days, Gregorian rules. -/
def days_in_month (y m : Nat) : Nat :=
  if m = 2 then
    (if y % 4 = 0 && (y % 100 != 0 || y % 400 = 0) then 29 else 28)
  else if m = 4 || m = 6 || m = 9 || m = 11 then 30
  else 31

/-- Pydantic's parse of an ISO `YYYY-MM-DD` date string into a valid
calendar date. -/
def parse_iso_date (s : String) : Option PyDate :=
  match splitOnChar '-' s.data with
  | [ys, ms, ds] =>
      if ys.length = 4 && ms.length = 2 && ds.length = 2 then
        match parseDigits ys, parseDigits ms, parseDigits ds with
        | some y, some m, some d =>
            if 1 ≤ m && m ≤ 12 && 1 ≤ d && d ≤ days_in_month y m then
              some ⟨y, m, d⟩
            else none
        | _, _, _ => none
      else none
  | _ => none

/-- Pydantic's parse of an ISO `HH:MM:SS` (or `HH:MM`) time string into a
valid time of day. -/
def parse_iso_time (s : String) : Option PyTime :=
  match splitOnChar ':' s.data with
  | [hs, ms, ss] =>
      if hs.length = 2 && ms.length = 2 && ss.length = 2 then
        match parseDigits hs, parseDigits ms, parseDigits ss with
        | some h, some m, some sec =>
            if h ≤ 23 && m ≤ 59 && sec ≤ 59 then some ⟨h, m, sec⟩ else none
        | _, _, _ => none
      else none
  | [hs, ms] =>
      if hs.length = 2 && ms.length = 2 then
        match parseDigits hs, parseDigits ms with
        | some h, some m =>
            if h ≤ 23 && m ≤ 59 then some ⟨h, m, 0⟩ else none
        | _, _ => none
      else none
  | _ => none

/-- `Event.model_validate` (main.py line 162, model at lines 22-29):
validates one JSON value against the `Event` schema.  `date`,
`title`, `start_time` and `end_time` are required; `description` is
optional with default `None` and accepts `null`; any shape or type
mismatch raises a validation error. -/
def Event.model_validate (j : Json) : Except PyErr Event :=
  match j with
  | .obj fields =>
      match fields.lookup "date", fields.lookup "title",
            fields.lookup "start_time", fields.lookup "end_time" with
      | some (.str ds), some (.str title), some (.str sts),
        some (.str ets) =>
          match parse_iso_date ds, parse_iso_time sts, parse_iso_time ets with
          | some d, some st, some et =>
              match fields.lookup "description" with
              | none => .ok ⟨d, title, none, st, et⟩
              | some .null => .ok ⟨d, title, none, st, et⟩
              | some (.str desc) => .ok ⟨d, title, some desc, st, et⟩
              | some _ => .error .validationError
          | _, _, _ => .error .validationError
      | _, _, _, _ => .error .validationError
  | _ => .error .validationError

/-- The list comprehension of main.py line 162 applied to the value
`parsed` returned by `json.loads`: validate every element of a JSON
array.  Iterating a JSON object yields its keys and iterating a string
yields its characters (each then failing validation unless the iterable
is empty); other JSON scalars are not iterable and raise `TypeError`. -/
def create_events_from_reply (parsed : Json) : Except PyErr (List Event) :=
  match parsed with
  | .arr xs => xs.mapM Event.model_validate
  | .obj fields => (fields.map fun p => Json.str p.1).mapM Event.model_validate
  | .str s =>
      (s.data.map fun c => Json.str (String.singleton c)).mapM
        Event.model_validate
  | _ => .error .typeError

/-- `datetime.date.toordinal`: days before year `y` (proleptic Gregorian). -/
def days_before_year (y : Nat) : Nat :=
  let n := y - 1
  n * 365 + n / 4 - n / 100 + n / 400

/-- Days in year `y` before the first of month `m`. -/
def days_before_month (y m : Nat) : Nat :=
  (List.range (m - 1)).foldl (fun a i => a + days_in_month y (i + 1)) 0

/-- `datetime.date(y, m, d).toordinal()`. -/
def toordinal (y m d : Nat) : Nat :=
  days_before_year y + days_before_month y m + d

/-- `datetime.date(y, m, d).weekday()`: Monday is 0, Sunday is 6. -/
def weekday (y m d : Nat) : Nat :=
  (toordinal y m d + 6) % 7

/-- `calendar.month_name`: index 0 is the empty string. -/
def month_name : List String :=
  ["", "January", "February", "March", "April", "May", "June", "July",
   "August", "September", "October", "November", "December"]

/-- Python `str.center(20)`: pad with spaces to width 20, the extra space
(if any) going to the right for this even width. -/
def center20 (s : String) : String :=
  if 20 ≤ s.length then s
  else
    let marg := 20 - s.length
    let left := marg / 2
    String.mk (List.replicate left ' ') ++ s ++
      String.mk (List.replicate (marg - left) ' ')

/-- Python `str.rstrip()`: drop trailing whitespace. -/
def pyRstrip (s : String) : String :=
  String.mk (s.data.reverse.dropWhile (fun c => c.isWhitespace)).reverse

/-- `TextCalendar.formatday(d, 2)`: two-space cell for a padding day,
otherwise the day number right-justified to width 2. -/
def formatday (d : Nat) : String :=
  if d = 0 then "  "
  else if d < 10 then " " ++ toString d
  else toString d

/-- Split the padded day-cell list into calendar weeks of seven, with a
fuel argument for structural recursion (each step consumes at least one
cell, so `fuel = l.length` always suffices). -/
def chunk7Fuel : Nat → List Nat → List (List Nat)
  | _, [] => []
  | 0, _ :: _ => []
  | fuel + 1, x :: xs => (x :: xs.take 6) :: chunk7Fuel fuel (xs.drop 6)

/-- Split the padded day-cell list into calendar weeks of seven. -/
def chunk7 (l : List Nat) : List (List Nat) :=
  chunk7Fuel l.length l

/-- `Calendar.monthdayscalendar(y, m)` with `firstweekday = 0` (Monday):
the month's weeks as day numbers, `0` for days outside the month. -/
def monthweeks (y m : Nat) : List (List Nat) :=
  let f := weekday y m 1
  let n := days_in_month y m
  chunk7 (List.replicate f 0 ++ (List.range n).map (· + 1) ++
    List.replicate ((7 - (f + n) % 7) % 7) 0)

/-- `TextCalendar.formatweekheader(2)`: two-letter day abbreviations,
Monday first. -/
def week_header : String :=
  String.intercalate " " ["Mo", "Tu", "We", "Th", "Fr", "Sa", "Su"]

/-- `TextCalendar.formatmonthname(y, m, 20)`: month name and year,
centered to the 20-column width. -/
def formatmonthname (y m : Nat) : String :=
  center20 (month_name.getD m "" ++ " " ++ toString y)

/-- `calendar.TextCalendar().formatmonth(y, m)` with the default
`w = 2, l = 1`: month-name header, weekday header, then one line per
week, each line right-stripped and newline-terminated. -/
def formatmonth (y m : Nat) : String :=
  pyRstrip (formatmonthname y m) ++ "\n" ++
  pyRstrip week_header ++ "\n" ++
  String.join ((monthweeks y m).map fun w =>
    pyRstrip (String.intercalate " " (w.map formatday)) ++ "\n")

/-- `calendar.TextCalendar().formatmonth(2025, month)` (main.py line 154)
for an arbitrary integer month as produced by `get_events_month`: months
outside `[1, 12]` raise (`IllegalMonthError` from `monthrange`, or
`IndexError` from `month_name` for months past 12), both modelled as
`illegalMonthError`. -/
def formatmonthE (month : Int) : Except PyErr String :=
  if 1 ≤ month ∧ month ≤ 12 then .ok (formatmonth 2025 month.toNat)
  else .error .illegalMonthError

/-- The event-extraction prompt template (main.py lines 128-153) with
`month_cal` and `events_table_html` substituted by `str.format`. -/
def events_prompt (month_cal : String) (events_table_html : String) : String :=
  "    Can you please format the following HTML into a JSON array? DO NOT include any\n    commentary, only the JSON response.\n\n    The returned object should be as follows:\n\n    Use the following schemas:\n\n    - date: ISO date\n    - title (from Event field in table): string\n    - description (from Event field in table): string OR null\n    - start_time (half of Time field in table): ISO time\n    - end_time (half of Time field in table): ISO time\n\n    If the event is on weekly throughout the month (e.g. \"every Thursday\"), please create a\n    JSON object for every applicable date. Here's a calendar for the month for you to\n    reference:\n\n    "
    ++ month_cal ++
    "\n\n    Here is the HTML to format:\n\n    ```html\n    "
    ++ events_table_html ++
    "\n    ```\n    "

/-- The prompt built by `create_events_from_html` (main.py lines 154-155):
the text calendar for the month in the fixed year 2025 substituted into
the template. -/
def create_events_prompt (html : String) (month : Int) :
    Except PyErr String :=
  (formatmonthE month).map fun mc => events_prompt mc html

/-- The `Settings` model (settings.py lines 16-40), paths as strings. -/
structure Settings where
  events_page_url : String
  openrouter_api_key : String
  openrouter_model : String := "deepseek/deepseek-chat-v3.1:free"
  artifacts_dir : String := "artifacts"
  ics_file_name : String := "events.ics"
  html_file_name : String := "events.html"
  scraper_user_agent : String :=
    "Mozilla/5.0 (Macintosh; Intel Mac OS X 15.7; rv:143.0) Gecko/20100101 Firefox/143.0"
  log_level : String := "DEBUG"
  deriving Repr, DecidableEq

/-- An outbound HTTP GET request as issued by `get_page_html`
(main.py lines 32-48): target URL and the optional `User-Agent` header. -/
structure HttpRequest where
  url : String
  user_agent : Option String
  deriving Repr, DecidableEq

/-- The request built by `get_page_html(url, user_agent)`
(main.py lines 45-48). -/
def get_page_html_request (url : String) (user_agent : Option String) :
    HttpRequest :=
  { url := url, user_agent := user_agent }

/-- The single page fetch issued by `main` (main.py line 238):
`get_page_html` is called with the literal URL and without a
`user_agent` argument, so the header defaults to absent. -/
def main_fetch_request (s : Settings) : HttpRequest :=
  let _ := s
  get_page_html_request "https://markets.leeds.gov.uk/whats-kirkgate" none

/-- `pathlib`'s `/` operator on a directory and a file name. -/
def joinPath (dir name : String) : String := dir ++ "/" ++ name

/-- `file_content_matches_existing` (main.py lines 218-232) over a
filesystem modelled as an association list from path to text content:
`False` when the path does not exist, otherwise an exact string
comparison of the file's text with `content`. -/
def file_content_matches_existing (fs : List (String × String))
    (file_path : String) (content : String) : Bool :=
  match fs.lookup file_path with
  | none => false
  | some existing_content => existing_content == content

/-- `Path.write_text` over the association-list filesystem. -/
def fsWrite (fs : List (String × String)) (p c : String) :
    List (String × String) :=
  (p, c) :: fs

/-- One observable side effect of a run of `main`. -/
inductive Effect where
  /-- `mkdir(parents=True, exist_ok=True)` on the artifacts directory. -/
  | mkdirAll (p : String)
  /-- The page fetch: an HTTP GET. -/
  | httpGet (req : HttpRequest)
  /-- One completion-service call, with the prompt sent. -/
  | llmPost (prompt : String)
  /-- `Path.write_text` of `content` at `p`. -/
  | writeText (p : String) (content : String)
  /-- A log line. -/
  | logMsg (m : String)
  deriving Repr, DecidableEq

/-- Oracle inputs for one run of `main`: everything the external world
returns to it.  `fetched_doc` is BeautifulSoup's parse of the fetched
page (fetch and parse are library boundaries); `month_reply` is the
completion service's text reply to the month prompt; `events_reply` is
the result of `json.loads` on the completion service's reply to the
event-extraction prompt, with `.error` standing for an unparseable
reply (`json.JSONDecodeError`). -/
structure Oracles where
  fetched_doc : List HtmlNode
  month_reply : String
  events_reply : Except PyErr Json

/-- `main` (main.py lines 235-263): the effect trace, the final
filesystem, and the outcome.  `now` is the wall-clock reading taken by
`datetime.now()` during serialization and `uuids` the stream of
`uuid.uuid4()` draws. -/
def main_run (s : Settings) (fs : List (String × String)) (o : Oracles)
    (now : PyDateTime) (uuids : Nat → String) :
    List Effect × List (String × String) × Except PyErr Unit :=
  let effs0 : List Effect :=
    [.mkdirAll s.artifacts_dir, .httpGet (main_fetch_request s)]
  match find_html_events_table o.fetched_doc with
  | .error e => (effs0, fs, .error e)
  | .ok events_table_html =>
    let events_html_file_path := joinPath s.artifacts_dir s.html_file_name
    if file_content_matches_existing fs events_html_file_path
        events_table_html then
      (effs0 ++ [.logMsg "No changes detected in events HTML. Exiting."],
       fs, .ok ())
    else
      let fs1 := fsWrite fs events_html_file_path events_table_html
      let effs1 := effs0 ++
        [.writeText events_html_file_path events_table_html,
         .llmPost (month_prompt events_table_html)]
      match get_events_month events_table_html o.month_reply with
      | .error e => (effs1, fs1, .error e)
      | .ok month_number =>
        match create_events_prompt events_table_html month_number with
        | .error e => (effs1, fs1, .error e)
        | .ok ev_prompt =>
          let effs2 := effs1 ++ [.llmPost ev_prompt]
          match o.events_reply.bind create_events_from_reply with
          | .error e => (effs2, fs1, .error e)
          | .ok events =>
            let ics_content := create_ics_from_events uuids now events
            let ics_file_path := joinPath s.artifacts_dir s.ics_file_name
            (effs2 ++
              [.writeText ics_file_path ics_content,
               .logMsg ("ICS file written to path: " ++ ics_file_path)],
             fsWrite fs1 ics_file_path ics_content, .ok ())

/-- The completion-service calls in an effect trace, by their prompts. -/
def llmPrompts (effs : List Effect) : List String :=
  effs.filterMap fun e =>
    match e with
    | .llmPost p => some p
    | _ => none

/-- The HTTP GET requests in an effect trace. -/
def httpGets (effs : List Effect) : List HttpRequest :=
  effs.filterMap fun e =>
    match e with
    | .httpGet r => some r
    | _ => none

/-- The file writes in an effect trace, as path-content pairs. -/
def fileWrites (effs : List Effect) : List (String × String) :=
  effs.filterMap fun e =>
    match e with
    | .writeText p c => some (p, c)
    | _ => none

/-! ## Helper lemmas -/

/-- Two strings differ when the first is a prefixed extension whose prefix
starts with a different character. -/
theorem append_ne_of_head_ne (p u t : String) (hp : p.data ≠ [])
    (h : p.data.head? ≠ t.data.head?) : p ++ u ≠ t := by
  intro he
  apply h
  have hd : p.data ++ u.data = t.data := by
    rw [← String.data_append, he]
  rw [← hd]
  cases hq : p.data with
  | nil => exact absurd hq hp
  | cons c cs => rfl

/-- Each `VEVENT` block contains the line `BEGIN:VEVENT` exactly once. -/
theorem event_entry_count_begin (uid ts : String) (e : Event) :
    (event_entry uid ts e).count "BEGIN:VEVENT" = 1 := by
  have h1 : "BEGIN:VEVENT" ≠ "UID:" ++ uid :=
    (append_ne_of_head_ne _ _ _ (by decide) (by decide)).symm
  have h2 : "BEGIN:VEVENT" ≠ "DTSTAMP:" ++ ts :=
    (append_ne_of_head_ne _ _ _ (by decide) (by decide)).symm
  have h3 : ∀ v, "BEGIN:VEVENT" ≠ "DTSTART:" ++ v :=
    fun v => (append_ne_of_head_ne _ _ _ (by decide) (by decide)).symm
  have h4 : ∀ v, "BEGIN:VEVENT" ≠ "DTEND:" ++ v :=
    fun v => (append_ne_of_head_ne _ _ _ (by decide) (by decide)).symm
  have h5 : "BEGIN:VEVENT" ≠ "SUMMARY:" ++ e.title :=
    (append_ne_of_head_ne _ _ _ (by decide) (by decide)).symm
  have h6 : ∀ v, "BEGIN:VEVENT" ≠ "DESCRIPTION:" ++ v :=
    fun v => (append_ne_of_head_ne _ _ _ (by decide) (by decide)).symm
  simp [event_entry, List.count_cons, h1, h2, h3, h4, h5, h6]

/-- Each `VEVENT` block contains the line `END:VEVENT` exactly once. -/
theorem event_entry_count_end (uid ts : String) (e : Event) :
    (event_entry uid ts e).count "END:VEVENT" = 1 := by
  have h1 : "END:VEVENT" ≠ "UID:" ++ uid :=
    (append_ne_of_head_ne _ _ _ (by decide) (by decide)).symm
  have h2 : "END:VEVENT" ≠ "DTSTAMP:" ++ ts :=
    (append_ne_of_head_ne _ _ _ (by decide) (by decide)).symm
  have h3 : ∀ v, "END:VEVENT" ≠ "DTSTART:" ++ v :=
    fun v => (append_ne_of_head_ne _ _ _ (by decide) (by decide)).symm
  have h4 : ∀ v, "END:VEVENT" ≠ "DTEND:" ++ v :=
    fun v => (append_ne_of_head_ne _ _ _ (by decide) (by decide)).symm
  have h5 : "END:VEVENT" ≠ "SUMMARY:" ++ e.title :=
    (append_ne_of_head_ne _ _ _ (by decide) (by decide)).symm
  have h6 : ∀ v, "END:VEVENT" ≠ "DESCRIPTION:" ++ v :=
    fun v => (append_ne_of_head_ne _ _ _ (by decide) (by decide)).symm
  simp [event_entry, List.count_cons, h1, h2, h3, h4, h5, h6]

/-- The flattened event entries contain `BEGIN:VEVENT` once per entry. -/
theorem flatten_count_begin (uuids : Nat → String) (ts : String) :
    ∀ l : List (Nat × Event),
      ((l.map fun p => event_entry (uuids p.1) ts p.2).flatten).count
        "BEGIN:VEVENT" = l.length := by
  intro l
  induction l with
  | nil => simp
  | cons h t ih =>
      simp [List.count_append, event_entry_count_begin, ih, Nat.add_comm]

/-- The flattened event entries contain `END:VEVENT` once per entry. -/
theorem flatten_count_end (uuids : Nat → String) (ts : String) :
    ∀ l : List (Nat × Event),
      ((l.map fun p => event_entry (uuids p.1) ts p.2).flatten).count
        "END:VEVENT" = l.length := by
  intro l
  induction l with
  | nil => simp
  | cons h t ih =>
      simp [List.count_append, event_entry_count_end, ih, Nat.add_comm]

/-! ## Claims -/

/-- Claim C1: for every list of events, `create_ics_from_events` joins its
lines with CRLF; the lines are the fixed 4-line header, then the event
entries in input order, then the single footer line `END:VCALENDAR`; the
output contains exactly one `BEGIN:VEVENT` line and one `END:VEVENT` line
per input event, and every event entry starts with `BEGIN:VEVENT` and
ends with `END:VEVENT`. -/
theorem c1_serialize_structure (uuids : Nat → String) (now : PyDateTime)
    (events : List Event) :
    create_ics_from_events uuids now events =
      String.intercalate "\r\n" (ics_lines uuids now events) ∧
    ics_lines uuids now events =
      ["BEGIN:VCALENDAR", "VERSION:2.0", "PRODID:-//MyPythonScript//EN",
        "CALSCALE:GREGORIAN"] ++
      (events.enum.map fun p =>
        event_entry (uuids p.1) (creation_timestamp now) p.2).flatten ++
      ["END:VCALENDAR"] ∧
    (ics_lines uuids now events).take 4 =
      ["BEGIN:VCALENDAR", "VERSION:2.0", "PRODID:-//MyPythonScript//EN",
        "CALSCALE:GREGORIAN"] ∧
    (ics_lines uuids now events).getLast? = some "END:VCALENDAR" ∧
    (ics_lines uuids now events).count "BEGIN:VEVENT" = events.length ∧
    (ics_lines uuids now events).count "END:VEVENT" = events.length ∧
    (∀ uid ts e, (event_entry uid ts e).head? = some "BEGIN:VEVENT" ∧
      (event_entry uid ts e).getLast? = some "END:VEVENT") := by
  refine ⟨rfl, rfl, ?_, ?_, ?_, ?_, ?_⟩
  · simp [ics_lines, ics_header, ics_footer, List.take]
  · simp only [ics_lines, ics_footer]
    exact List.getLast?_concat _
  · have hflat := flatten_count_begin uuids (creation_timestamp now)
      events.enum
    simp [ics_lines, ics_header, ics_footer, List.count_append, hflat,
      List.count_cons]
  · have hflat := flatten_count_end uuids (creation_timestamp now)
      events.enum
    simp [ics_lines, ics_header, ics_footer, List.count_append, hflat,
      List.count_cons]
  · intro uid ts e
    exact ⟨rfl, rfl⟩

/-- Claim C2 counterexample: the completion reply `"13"` makes
`get_events_month` return `13`, a value outside `[1, 12]`, so not every
reply yields a value in range. -/
theorem c2_counterexample :
    get_events_month "" "13" = .ok 13 ∧ ¬((13 : Int) ≤ 12) := by
  exact ⟨rfl, by decide⟩

/-- Claim C2 (amended): `get_events_month` parses the completion reply
with Python `int()` — reply `"7"` yields `7` and reply `"July"` fails
with a numeric-parse error — but performs no range validation, so
integer replies outside `[1, 12]` such as `"13"` are returned as-is. -/
theorem c2_month_parse_amended :
    (∀ html, get_events_month html "7" = .ok 7) ∧
    (∀ html, get_events_month html "July" = .error .valueError) ∧
    (∀ html, get_events_month html "13" = .ok 13) ∧
    (∀ html reply, get_events_month html reply = pyIntParse reply) := by
  exact ⟨fun _ => rfl, fun _ => rfl, fun _ => rfl, fun _ _ => rfl⟩

/-- Claim C8: `file_content_matches_existing` returns `true` exactly when
a file exists at the path and its text content equals the given content;
in particular it returns `false` when no file exists there. -/
theorem c8_unchanged_iff (fs : List (String × String))
    (path content : String) :
    file_content_matches_existing fs path content = true ↔
      fs.lookup path = some content := by
  unfold file_content_matches_existing
  cases h : fs.lookup path with
  | none => simp
  | some existing_content => simp [beq_iff_eq]

/-- Claim C3 counterexample: on a document whose only `main` element
contains no table, `find_html_events_table` does not fail with a
structural error — it returns the string `"None"`, Python's `str(None)`. -/
theorem c3_counterexample :
    find_html_events_table [HtmlNode.element "main" [] []] = .ok "None" :=
  rfl

/-- Claim C3 (amended): with no `main` element the extraction fails with
an attribute (structural) error; when the first `main` contains a
`table`, the first such table's serialized markup, tag included, is
returned; but when the first `main` contains no nested `table`, the
function does not fail: it returns the string `"None"` (`str(None)`). -/
theorem c3_extract_table_amended :
    (∀ doc, findTag "main" doc = none →
      find_html_events_table doc = .error .attributeError) ∧
    (∀ doc m t, findTag "main" doc = some m →
      findTag "table" m.children = some t →
      find_html_events_table doc = .ok (render t)) ∧
    (∀ doc m, findTag "main" doc = some m →
      findTag "table" m.children = none →
      find_html_events_table doc = .ok "None") := by
  refine ⟨fun doc h => ?_, fun doc m t h1 h2 => ?_, fun doc m h1 h2 => ?_⟩
  · simp [find_html_events_table, h]
  · simp [find_html_events_table, h1, h2]
  · simp [find_html_events_table, h1, h2]

/-- A document with one `main` holding a paragraph and then a table. -/
def sample_doc : List HtmlNode :=
  [.element "body" []
    [.element "main" []
      [.element "p" [] [.text "hi"],
       .element "table" [("class", "events")] [.text "T"]]]]

/-- The `main` element of `sample_doc`. -/
def sample_main : HtmlNode :=
  .element "main" []
    [.element "p" [] [.text "hi"],
     .element "table" [("class", "events")] [.text "T"]]

/-- The table element of `sample_doc`. -/
def sample_table : HtmlNode :=
  .element "table" [("class", "events")] [.text "T"]

theorem c3_extract_table_amended_witness :
    findTag "main" sample_doc = some sample_main ∧
    findTag "table" sample_main.children = some sample_table ∧
    find_html_events_table sample_doc = .ok (render sample_table) :=
  ⟨rfl, rfl,
    c3_extract_table_amended.2.1 sample_doc sample_main sample_table rfl rfl⟩

/-- The one event of the spec's worked example (validated from the JSON
object with date 2025-03-04, title "Market Day", null description, and
times 08:00:00 to 16:00:00). -/
def sample_event : Event :=
  { date := ⟨2025, 3, 4⟩, title := "Market Day", description := none,
    start_time := ⟨8, 0, 0⟩, end_time := ⟨16, 0, 0⟩ }

/-- A fixed stream of generated unique identifiers. -/
def sample_uuids : Nat → String := fun _ => "u"

/-- The wall-clock reading of `datetime.now()` in a UTC+02:00 zone:
local time 2025-03-04 12:00:00. -/
def now_local_sample : PyDateTime := ⟨2025, 3, 4, 12, 0, 0⟩

/-- The same instant expressed in UTC: 2025-03-04 10:00:00. -/
def now_utc_sample : PyDateTime := ⟨2025, 3, 4, 10, 0, 0⟩

/-- Claim C4 (code bug): a single call stamps the same `DTSTAMP` on every
event entry, but the value is the local wall-clock reading of
`datetime.now()` with a literal `Z` appended, not the current UTC time:
in a UTC+02:00 zone at local 2025-03-04 12:00:00 (UTC 10:00:00) both
events carry `DTSTAMP:20250304T120000Z`, while formatting the UTC time
yields `20250304T100000Z`. -/
theorem c4_dtstamp_local_not_utc :
    ((ics_lines sample_uuids now_local_sample
        [sample_event, sample_event]).filter
      (fun l => l.data.take 8 == "DTSTAMP:".data)) =
      ["DTSTAMP:20250304T120000Z", "DTSTAMP:20250304T120000Z"] ∧
    creation_timestamp now_local_sample = "20250304T120000Z" ∧
    strftime_basic now_utc_sample ++ "Z" = "20250304T100000Z" ∧
    ("20250304T120000Z" : String) ≠ "20250304T100000Z" := by
  refine ⟨rfl, rfl, rfl, by decide⟩

/-- A settings object with a configured page URL and identifying string. -/
def sample_settings : Settings :=
  { events_page_url := "https://example.com/events",
    openrouter_api_key := "k",
    scraper_user_agent := "TestAgent/1.0" }

/-- Claim C5 (code bug): the single page fetch of `main` ignores the
settings entirely — for every configuration it targets the hard-coded
URL and carries no `User-Agent` header, so it neither uses
`events_page_url` nor the configured scraper identifying string. -/
theorem c5_fetch_ignores_settings :
    main_fetch_request sample_settings =
      { url := "https://markets.leeds.gov.uk/whats-kirkgate",
        user_agent := none } ∧
    (main_fetch_request sample_settings).url ≠
      sample_settings.events_page_url ∧
    (main_fetch_request sample_settings).user_agent ≠
      some sample_settings.scraper_user_agent ∧
    (∀ s : Settings, main_fetch_request s =
      { url := "https://markets.leeds.gov.uk/whats-kirkgate",
        user_agent := none }) := by
  refine ⟨rfl, by decide, by decide, fun s => rfl⟩

/-- The `json.loads` value of the spec's worked-example completion
reply: a one-element JSON array. -/
def sample_reply_json : Json :=
  .arr [.obj [("date", .str "2025-03-04"), ("title", .str "Market Day"),
    ("description", .null), ("start_time", .str "08:00:00"),
    ("end_time", .str "16:00:00")]]

/-- Claim C9: the worked-example reply validates to exactly one event with
the given field values, and serializing that singleton list emits a
single `VEVENT` whose lines include `DTSTART:20250304T080000`,
`DTEND:20250304T160000` and an empty-valued `DESCRIPTION:` (the absent
description became the empty string); a description with an internal
newline is emitted with the newline escaped as a literal backslash-n. -/
theorem c9_worked_example :
    create_events_from_reply sample_reply_json = .ok [sample_event] ∧
    sample_event.date = ⟨2025, 3, 4⟩ ∧
    sample_event.title = "Market Day" ∧
    sample_event.description = none ∧
    sample_event.start_time = ⟨8, 0, 0⟩ ∧
    sample_event.end_time = ⟨16, 0, 0⟩ ∧
    ics_lines sample_uuids now_local_sample [sample_event] =
      ["BEGIN:VCALENDAR", "VERSION:2.0", "PRODID:-//MyPythonScript//EN",
       "CALSCALE:GREGORIAN", "BEGIN:VEVENT", "UID:u",
       "DTSTAMP:20250304T120000Z", "DTSTART:20250304T080000",
       "DTEND:20250304T160000", "SUMMARY:Market Day", "DESCRIPTION:",
       "LOCATION:Leeds Kirkgate Market, Kirkgate, Leeds LS2 7HY, UK",
       "END:VEVENT", "END:VCALENDAR"] ∧
    (∀ uid ts, (event_entry uid ts
        { sample_event with description := some "a\nb" })[6]? =
      some "DESCRIPTION:a\\nb") := by
  exact ⟨rfl, rfl, rfl, rfl, rfl, rfl, rfl, fun uid ts => rfl⟩

/-- Claim C6: when the newly extracted table fragment equals the persisted
snapshot's content, `main` logs and exits successfully right after the
single page fetch: the whole effect trace is the directory creation, one
HTTP GET and the log line — no completion-service call, no file write —
and the filesystem is returned unchanged. -/
theorem c6_unchanged_short_circuit (s : Settings)
    (fs : List (String × String)) (o : Oracles) (now : PyDateTime)
    (uuids : Nat → String) (tbl : String)
    (hext : find_html_events_table o.fetched_doc = .ok tbl)
    (hsnap : fs.lookup (joinPath s.artifacts_dir s.html_file_name) =
      some tbl) :
    main_run s fs o now uuids =
      ([.mkdirAll s.artifacts_dir, .httpGet (main_fetch_request s),
        .logMsg "No changes detected in events HTML. Exiting."],
       fs, .ok ()) := by
  have hmatch : file_content_matches_existing fs
      (joinPath s.artifacts_dir s.html_file_name) tbl = true := by
    simp [file_content_matches_existing, hsnap]
  simp [main_run, hext, hmatch]

/-- Oracles for a run whose fetched page parses to `sample_doc`. -/
def sample_oracles : Oracles :=
  { fetched_doc := sample_doc, month_reply := "3",
    events_reply := .ok (.arr []) }

/-- A filesystem already holding the snapshot of `sample_doc`'s table. -/
def snapshot_fs : List (String × String) :=
  [("artifacts/events.html", "<table class=\"events\">T</table>")]

theorem c6_unchanged_short_circuit_witness :
    find_html_events_table sample_oracles.fetched_doc =
      .ok "<table class=\"events\">T</table>" ∧
    snapshot_fs.lookup (joinPath sample_settings.artifacts_dir
        sample_settings.html_file_name) =
      some "<table class=\"events\">T</table>" ∧
    main_run sample_settings snapshot_fs sample_oracles now_local_sample
        sample_uuids =
      ([.mkdirAll sample_settings.artifacts_dir,
        .httpGet (main_fetch_request sample_settings),
        .logMsg "No changes detected in events HTML. Exiting."],
       snapshot_fs, .ok ()) :=
  ⟨rfl, rfl,
    c6_unchanged_short_circuit sample_settings snapshot_fs sample_oracles
      now_local_sample sample_uuids "<table class=\"events\">T</table>"
      rfl rfl⟩

/-- Claim C7: when the snapshot and calendar paths differ (they do on the
default file names), a calendar-file write appears in the trace only
when extraction succeeded, the month reply parsed, and the full events
reply parsed and validated — and the content written is exactly the
serialization of the validated event list.  In particular no calendar
file is written on a month-resolution, JSON-parse, or schema-validation
failure. -/
theorem c7_no_ics_write_without_validation (s : Settings)
    (fs : List (String × String)) (o : Oracles) (now : PyDateTime)
    (uuids : Nat → String) (c : String)
    (hdistinct : joinPath s.artifacts_dir s.html_file_name ≠
      joinPath s.artifacts_dir s.ics_file_name)
    (hw : Effect.writeText (joinPath s.artifacts_dir s.ics_file_name) c ∈
      (main_run s fs o now uuids).1) :
    ∃ tbl month events,
      find_html_events_table o.fetched_doc = .ok tbl ∧
      get_events_month tbl o.month_reply = .ok month ∧
      o.events_reply.bind create_events_from_reply = .ok events ∧
      c = create_ics_from_events uuids now events := by
  unfold main_run at hw
  cases hext : find_html_events_table o.fetched_doc with
  | error e =>
      rw [hext] at hw
      simp at hw
  | ok tbl =>
      rw [hext] at hw
      simp only [] at hw
      cases hm : file_content_matches_existing fs
          (joinPath s.artifacts_dir s.html_file_name) tbl with
      | true =>
          rw [hm] at hw
          simp at hw
      | false =>
          rw [hm] at hw
          simp only [Bool.false_eq_true, if_false] at hw
          cases hmo : get_events_month tbl o.month_reply with
          | error e =>
              rw [hmo] at hw
              simp at hw
              exact absurd hw.1 (Ne.symm hdistinct)
          | ok month =>
              rw [hmo] at hw
              simp only [] at hw
              cases hcp : create_events_prompt tbl month with
              | error e =>
                  rw [hcp] at hw
                  simp at hw
                  exact absurd hw.1 (Ne.symm hdistinct)
              | ok ev_prompt =>
                  rw [hcp] at hw
                  simp only [] at hw
                  cases hev : o.events_reply.bind create_events_from_reply
                      with
                  | error e =>
                      rw [hev] at hw
                      simp at hw
                      exact absurd hw.1 (Ne.symm hdistinct)
                  | ok events =>
                      rw [hev] at hw
                      simp at hw
                      rcases hw with hsnap' | hics
                      · exact absurd hsnap'.1 (Ne.symm hdistinct)
                      · exact ⟨tbl, month, events, rfl, hmo, rfl, hics⟩

theorem c7_no_ics_write_without_validation_witness :
    (joinPath sample_settings.artifacts_dir
        sample_settings.html_file_name ≠
      joinPath sample_settings.artifacts_dir
        sample_settings.ics_file_name) ∧
    (Effect.writeText (joinPath sample_settings.artifacts_dir
        sample_settings.ics_file_name)
        (create_ics_from_events sample_uuids now_local_sample []) ∈
      (main_run sample_settings [] sample_oracles now_local_sample
        sample_uuids).1) ∧
    (∃ tbl month events,
      find_html_events_table sample_oracles.fetched_doc = .ok tbl ∧
      get_events_month tbl sample_oracles.month_reply = .ok month ∧
      sample_oracles.events_reply.bind create_events_from_reply =
        .ok events ∧
      create_ics_from_events sample_uuids now_local_sample [] =
        create_ics_from_events sample_uuids now_local_sample events) :=
  ⟨by decide, by decide,
    c7_no_ics_write_without_validation sample_settings [] sample_oracles
      now_local_sample sample_uuids
      (create_ics_from_events sample_uuids now_local_sample [])
      (by decide) (by decide)⟩

/-- Claim C10: for every month in `[1, 12]`, the calendar grid embedded in
the event-extraction prompt is `TextCalendar.formatmonth` for that month
of the fixed year 2025, and the prompts sent to the completion service
are identical whatever the run-time clock reads — the current date never
enters them. -/
theorem c10_calendar_year_2025 (m : Int) (h1 : 1 ≤ m) (h2 : m ≤ 12) :
    (∀ html, create_events_prompt html m =
      .ok (events_prompt (formatmonth 2025 m.toNat) html)) ∧
    formatmonthE m = .ok (formatmonth 2025 m.toNat) ∧
    (∀ s fs o uuids now now',
      llmPrompts (main_run s fs o now uuids).1 =
        llmPrompts (main_run s fs o now' uuids).1) := by
  refine ⟨fun html => ?_, ?_, fun s fs o uuids now now' => ?_⟩
  · simp [create_events_prompt, formatmonthE, h1, h2, Except.map]
  · simp [formatmonthE, h1, h2]
  · cases hf : find_html_events_table o.fetched_doc with
    | error e => simp [main_run, hf, llmPrompts]
    | ok tbl =>
      cases hm : file_content_matches_existing fs
          (joinPath s.artifacts_dir s.html_file_name) tbl with
      | true => simp [main_run, hf, hm, llmPrompts]
      | false =>
        cases hmo : get_events_month tbl o.month_reply with
        | error e => simp [main_run, hf, hm, hmo, llmPrompts]
        | ok mo =>
          cases hcp : create_events_prompt tbl mo with
          | error e => simp [main_run, hf, hm, hmo, hcp, llmPrompts]
          | ok p =>
            cases hev : o.events_reply.bind create_events_from_reply with
            | error e => simp [main_run, hf, hm, hmo, hcp, hev, llmPrompts]
            | ok evs => simp [main_run, hf, hm, hmo, hcp, hev, llmPrompts]

theorem c10_calendar_year_2025_witness :
    (1 : Int) ≤ 3 ∧ (3 : Int) ≤ 12 ∧
    ((∀ html, create_events_prompt html 3 =
      .ok (events_prompt (formatmonth 2025 (3 : Int).toNat) html)) ∧
    formatmonthE 3 = .ok (formatmonth 2025 (3 : Int).toNat) ∧
    (∀ s fs o uuids now now',
      llmPrompts (main_run s fs o now uuids).1 =
        llmPrompts (main_run s fs o now' uuids).1)) :=
  ⟨by decide, by decide,
    c10_calendar_year_2025 3 (by decide) (by decide)⟩

end Kirkgate
